import Mathlib

/-!
Shallow embedding of the pySigma validator framework
(`sigma/validators/tags.py` and the validators exercised by
`tests/test_validators.py`), together with proofs of the spec's claims
about it.

The source repository provides `sigma/validators/tags.py` in full; the
base-validator framework (`sigma/validators/base.py`), the rule object
model (`sigma/rule.py`), the condition validator
(`sigma/validators/condition.py`), the modifier validator
(`sigma/validators/modifiers.py`) and the taxonomy data
(`sigma/data/mitre_attack.py`) are consumed only through their contracts;
those parts are modelled from the spec, as marked on each definition.
-/

namespace PySigma

/-- Severity scale of validation issues
(`SigmaValidationIssueSeverity` from `sigma/validators/base.py`,
modelled from the spec: "ordinal scale, at least {LOW, MEDIUM, HIGH,
CRITICAL}"). -/
inductive SigmaValidationIssueSeverity where
  | LOW
  | MEDIUM
  | HIGH
  | CRITICAL
deriving DecidableEq, Repr

/-- A rule tag, split into a namespace and a name
(`SigmaRuleTag` from `sigma/rule.py`, modelled from the spec: "each tag
exposing namespace and name as separate tokens split on first
separator").  The Python attribute `namespace` is a Lean keyword, hence
the guillemets. -/
structure SigmaRuleTag where
  «namespace» : String
  name : String
deriving DecidableEq, Repr

/-- Splits a character list at the first occurrence of `sep`:
the characters before it and the characters after it, or `none` when
`sep` does not occur. -/
def splitFirst (sep : Char) : List Char → Option (List Char × List Char)
  | [] => none
  | c :: cs =>
      if c = sep then some ([], cs)
      else (splitFirst sep cs).map (fun p => (c :: p.1, p.2))

/-- Modelled from the spec: `SigmaRuleTag.from_str` of `sigma/rule.py`
is not in the sources; the spec says a tag string is "split on first
separator" into the namespace and name tokens (so `attack.t1001.001`
has namespace `attack` and name `t1001.001`, and a string without a
separator has an empty name). -/
def SigmaRuleTag.from_str (s : String) : SigmaRuleTag :=
  match splitFirst '.' s.data with
  | none => ⟨s, ""⟩
  | some (ns, rest) => ⟨⟨ns⟩, ⟨rest⟩⟩

/-- Field-match modifiers drawn from the fixed vocabulary the spec and
the tests exercise (`sigma/modifiers.py` is not in the sources; modelled
from the spec: "Modifiers are drawn from a fixed vocabulary (e.g.,
contains, all, base64, base64offset, and others)").  Constructor names
follow the Python class names `SigmaContainsModifier` etc. -/
inductive SigmaModifier where
  | contains
  | all
  | base64
  | base64offset
  | startswith
  | endswith
deriving DecidableEq, Repr

/-- A field match specification (`SigmaDetectionItem` from
`sigma/rule.py`, modelled from the spec: "a field name paired with an
ordered list of modifiers and a list of literal values"; an unbound
field specification has no field name). -/
structure SigmaDetectionItem where
  field : Option String
  modifiers : List SigmaModifier
  value : List String
deriving DecidableEq, Repr

/-- A reference inside a condition expression (modelled from the spec:
"represent condition references as a tagged variant over {literal-name,
wildcard-pattern, all-keyword}"; the condition parser of
`sigma/conditions.py` is not in the sources). -/
inductive ConditionAtom where
  | literal (name : String)
  | wildcard (pattern : String)
  | them
deriving DecidableEq, Repr

/-- A parsed condition expression: a boolean combination of references
(modelled from the spec: "boolean combination of references to
sub-detection names"); `ofCount n a` embeds the "n of X" quantifier
form that the tests exercise ("1 of referenced*", "1 of them"). -/
inductive ConditionExpr where
  | ref (a : ConditionAtom)
  | ofCount (n : Nat) (a : ConditionAtom)
  | and (l r : ConditionExpr)
  | or (l r : ConditionExpr)
  | not (e : ConditionExpr)
deriving DecidableEq, Repr

/-- A parsed rule (`SigmaRule` from `sigma/rule.py`, modelled from the
spec: "optional identifier, title, ordered mapping of sub-detection name
→ field-match specifications, condition expression(s) as an
already-parsed tree, tag list").  The detection mapping keeps insertion
order, as the spec requires for issue ordering. -/
structure SigmaRule where
  title : String
  id : Option String
  detections : List (String × List SigmaDetectionItem)
  conditions : List ConditionExpr
  tags : List SigmaRuleTag
deriving DecidableEq, Repr

/-- The names of the sub-detections defined in a rule, in insertion
order. -/
def SigmaRule.detectionNames (rule : SigmaRule) : List String :=
  rule.detections.map Prod.fst

/-- The validation issues the embedded validators can emit, one
constructor per issue dataclass of the sources
(`InvalidATTACKTagIssue` and `InvalidTLPTagIssue` from
`sigma/validators/tags.py`; the remaining kinds are declared in
modules not in the sources and are modelled from the spec's issue
model: "kind, severity, affected rule(s), and payload data specific to
the kind"). -/
inductive SigmaValidationIssue where
  | InvalidATTACKTagIssue (rules : List SigmaRule) (tag : SigmaRuleTag)
  | InvalidTLPTagIssue (rules : List SigmaRule) (tag : SigmaRuleTag)
  | DanglingDetectionIssue (rules : List SigmaRule) (detectionName : String)
  | AllWithoutContainsModifierIssue (rules : List SigmaRule)
      (detectionItem : SigmaDetectionItem)
  | Base64OffsetWithoutContainsModifierIssue (rules : List SigmaRule)
      (detectionItem : SigmaDetectionItem)
  | ModifierAppliedMultipleIssue (rules : List SigmaRule)
      (detectionItem : SigmaDetectionItem) (modifiers : Finset SigmaModifier)
deriving DecidableEq

/-- Severity of each issue kind.  Both tag issues carry the class
variable `severity = SigmaValidationIssueSeverity.MEDIUM` in
`sigma/validators/tags.py`; the other kinds' severities are modelled
from the spec's issue model. -/
def SigmaValidationIssue.severity : SigmaValidationIssue → SigmaValidationIssueSeverity
  | .InvalidATTACKTagIssue _ _ => .MEDIUM
  | .InvalidTLPTagIssue _ _ => .MEDIUM
  | .DanglingDetectionIssue _ _ => .MEDIUM
  | .AllWithoutContainsModifierIssue _ _ => .MEDIUM
  | .Base64OffsetWithoutContainsModifierIssue _ _ => .MEDIUM
  | .ModifierAppliedMultipleIssue _ _ _ => .MEDIUM

/-- The list of implicated rules carried by an issue. -/
def SigmaValidationIssue.rules : SigmaValidationIssue → List SigmaRule
  | .InvalidATTACKTagIssue rs _ => rs
  | .InvalidTLPTagIssue rs _ => rs
  | .DanglingDetectionIssue rs _ => rs
  | .AllWithoutContainsModifierIssue rs _ => rs
  | .Base64OffsetWithoutContainsModifierIssue rs _ => rs
  | .ModifierAppliedMultipleIssue rs _ _ => rs

/-- The `[ self.rule ]` expression of the tag validators: the stored
rule as a one-element implicated-rule list (the stored rule is an
`Option` because a freshly constructed validator has not seen a rule
yet; `validate` always records the rule before any `validate_tag`
call). -/
def selfRuleList : Option SigmaRule → List SigmaRule
  | some r => [r]
  | none => []

/-- Python `str.lower()`: every character lower-cased.  Implemented by
mapping `Char.toLower` over the characters so that concrete values
reduce in the kernel. -/
def strLower (s : String) : String :=
  ⟨s.data.map Char.toLower⟩

/-- Python `str.replace(old, new)` for a single-character pattern and
replacement, which is the only form the source uses
(`replace("-", "_")`). -/
def strReplaceChar (old new : Char) (s : String) : String :=
  ⟨s.data.map (fun c => if c = old then new else c)⟩

/-- Normalization applied to a tactic display name in
`ATTACKTagValidator.__init__`: `tactic.lower().replace("-", "_")`. -/
def tacticNormalize (tactic : String) : String :=
  strReplaceChar '-' '_' (strLower tactic)

/-- The ATT&CK tag validator state: the allow-set built once at
construction (`ATTACKTagValidator` of `sigma/validators/tags.py`) and
the rule currently under validation (`self.rule`, set by the base
class `validate`). -/
structure ATTACKTagValidator where
  allowed_tags : Finset String
  rule : Option SigmaRule
deriving DecidableEq

/-- `ATTACKTagValidator.__init__`: the allow-set is the union of the
tactic catalog's display names lower-cased with "-" replaced by "_"
and the technique catalog's keys lower-cased.  The catalogs
(`mitre_attack_tactics`, `mitre_attack_techniques` of
`sigma/data/mitre_attack.py`, not in the sources) are passed as
association lists of key-value pairs, per the spec: "a taxonomy data
source exposing a tactic-name→display-name mapping and a
technique-identifier→display-name mapping". -/
def ATTACKTagValidator.init (mitre_attack_tactics : List (String × String))
    (mitre_attack_techniques : List (String × String)) : ATTACKTagValidator :=
  { allowed_tags :=
      (mitre_attack_tactics.map (fun p => tacticNormalize p.2)).toFinset ∪
      (mitre_attack_techniques.map (fun p => strLower p.1)).toFinset
    rule := none }

/-- `ATTACKTagValidator.validate_tag` of `sigma/validators/tags.py`. -/
def ATTACKTagValidator.validate_tag (v : ATTACKTagValidator)
    (tag : SigmaRuleTag) : List SigmaValidationIssue :=
  if tag.«namespace» = "attack" ∧ tag.name ∉ v.allowed_tags then
    [.InvalidATTACKTagIssue (selfRuleList v.rule) tag]
  else []

/-- Modelled from the spec: `SigmaTagValidator.validate` of
`sigma/validators/base.py` is not in the sources; per the spec's
validator contract it records the rule under validation and returns
the concatenation of `validate_tag` over the rule's tags, in tag
order. -/
def ATTACKTagValidator.validate (v : ATTACKTagValidator) (rule : SigmaRule) :
    ATTACKTagValidator × List SigmaValidationIssue :=
  let vNext := { v with rule := some rule }
  (vNext, (rule.tags.map vNext.validate_tag).flatten)

/-- The TLP tag validator state (`TLPTagValidatorBase` of
`sigma/validators/tags.py`): the subclass allow-set and the rule
currently under validation. -/
structure TLPTagValidatorBase where
  allowed_tags : Finset String
  rule : Option SigmaRule
deriving DecidableEq

/-- `TLPTagValidatorBase.validate_tag` of `sigma/validators/tags.py`. -/
def TLPTagValidatorBase.validate_tag (v : TLPTagValidatorBase)
    (tag : SigmaRuleTag) : List SigmaValidationIssue :=
  if tag.«namespace» = "tlp" ∧ tag.name ∉ v.allowed_tags then
    [.InvalidTLPTagIssue (selfRuleList v.rule) tag]
  else []

/-- Modelled from the spec: `SigmaTagValidator.validate` of
`sigma/validators/base.py` is not in the sources; it records the rule
and concatenates `validate_tag` over the rule's tags in order. -/
def TLPTagValidatorBase.validate (v : TLPTagValidatorBase) (rule : SigmaRule) :
    TLPTagValidatorBase × List SigmaValidationIssue :=
  let vNext := { v with rule := some rule }
  (vNext, (rule.tags.map vNext.validate_tag).flatten)

/-- `TLPv1TagValidator.allowed_tags` of `sigma/validators/tags.py`. -/
def TLPv1TagValidator.allowed_tags : Finset String :=
  {"white", "green", "amber", "red"}

/-- `TLPv2TagValidator.allowed_tags` of `sigma/validators/tags.py`. -/
def TLPv2TagValidator.allowed_tags : Finset String :=
  {"clear", "green", "amber", "amber+strict", "red"}

/-- `TLPTagValidator.allowed_tags` of `sigma/validators/tags.py`:
the union of the v1 and v2 allow-sets. -/
def TLPTagValidator.allowed_tags : Finset String :=
  TLPv1TagValidator.allowed_tags ∪ TLPv2TagValidator.allowed_tags

/-- A freshly constructed `TLPv1TagValidator`. -/
def TLPv1TagValidator.init : TLPTagValidatorBase :=
  ⟨TLPv1TagValidator.allowed_tags, none⟩

/-- A freshly constructed `TLPv2TagValidator`. -/
def TLPv2TagValidator.init : TLPTagValidatorBase :=
  ⟨TLPv2TagValidator.allowed_tags, none⟩

/-- A freshly constructed `TLPTagValidator`. -/
def TLPTagValidator.init : TLPTagValidatorBase :=
  ⟨TLPTagValidator.allowed_tags, none⟩

/-- Glob matching over character lists: `*` matches any (possibly
empty) span of characters; every other character matches itself
(modelled from the spec: "a wildcard pattern (`prefix*`, `*suffix`,
`*infix*`, or similar glob)").  The `fuel` argument only bounds the
recursion depth, making the definition structurally recursive;
`globMatch` supplies fuel that can never run out. -/
def globMatchChars (fuel : Nat) (p s : List Char) : Bool :=
  match fuel with
  | 0 => false
  | fuel + 1 =>
    match p with
    | [] => s.isEmpty
    | p₀ :: ps =>
        if p₀ = '*' then
          match s with
          | [] => globMatchChars fuel ps []
          | _ :: ss => globMatchChars fuel ps s || globMatchChars fuel p ss
        else
          match s with
          | [] => false
          | c :: ss => p₀ = c && globMatchChars fuel ps ss

/-- Glob matching on strings.  Each recursive step of `globMatchChars`
shortens `p` or `s`, so `p.length + s.length + 1` steps always
suffice. -/
def globMatch (pattern s : String) : Bool :=
  globMatchChars (pattern.length + s.length + 1) pattern.data s.data

/-- Expansion of one condition reference against the defined
sub-detection names, by reference kind (modelled from the spec's
resolver: literal name → that name if defined; wildcard → every
defined name matching the pattern; "them" → every defined name). -/
def ConditionAtom.resolve (names : List String) : ConditionAtom → List String
  | .literal n => if n ∈ names then [n] else []
  | .wildcard p => names.filter (fun n => globMatch p n)
  | .them => names

/-- The defined sub-detection names referenced anywhere in a condition
expression, regardless of boolean nesting (modelled from the spec:
"collect the set `R` of referenced names, resolving each reference
node by its kind"). -/
def ConditionExpr.referenced (names : List String) : ConditionExpr → List String
  | .ref a => a.resolve names
  | .ofCount _ a => a.resolve names
  | .and l r => l.referenced names ++ r.referenced names
  | .or l r => l.referenced names ++ r.referenced names
  | .not e => e.referenced names

/-- Whether a defined sub-detection name is reachable from some
condition expression of the rule. -/
def SigmaRule.referencesName (rule : SigmaRule) (n : String) : Bool :=
  rule.conditions.any (fun c => n ∈ c.referenced rule.detectionNames)

/-- Modelled from the spec: `DanglingDetectionValidator.validate` of
`sigma/validators/condition.py` is not in the sources; per the spec it
emits one `DanglingDetectionIssue` per defined sub-detection name not
reachable from any condition expression, in the order the names appear
in the rule's detection mapping. -/
def DanglingDetectionValidator.validate (rule : SigmaRule) :
    List SigmaValidationIssue :=
  (rule.detectionNames.filter (fun n => ¬ rule.referencesName n)).map
    (fun n => .DanglingDetectionIssue [rule] n)

/-- Whether a modifier belongs to the "contains"-family the spec's
modifier-combination checks look for (modelled from the spec: the
`contains` modifier is the containment modifier the tests exercise). -/
def containsFamily : SigmaModifier → Bool
  | .contains => true
  | _ => false

/-- The declared set of modifiers whose duplication the
modifier-combination validator flags (modelled from the spec:
"`field|base64|base64` → zero issues (base64 duplication is not
flagged, only base64offset/contains-class duplicates are, per the
validator's declared modifier set)"). -/
def duplicateCheckedModifiers : Finset SigmaModifier :=
  {SigmaModifier.base64offset, SigmaModifier.contains}

/-- Whether some occurrence of `base64offset` in the modifier sequence
has no "contains"-family modifier anywhere later in the sequence
(modelled from the spec: "a 'base64offset' modifier used without an
accompanying 'contains'-family modifier anywhere later in the same
sequence is flagged"). -/
def base64offsetDangling : List SigmaModifier → Bool
  | [] => false
  | m :: rest =>
      (m = SigmaModifier.base64offset && !(rest.any containsFamily)) ||
        base64offsetDangling rest

/-- The set of modifiers from the declared set applied more than once
in the sequence (a set, not a count). -/
def duplicatedModifiers (mods : List SigmaModifier) : Finset SigmaModifier :=
  duplicateCheckedModifiers.filter (fun m => 2 ≤ mods.count m)

/-- Modelled from the spec:
`InvalidModifierCombinationsValidator.validate_detection_item` of
`sigma/validators/modifiers.py` is not in the sources; per the spec it
flags, per field-match specification, (1) `all` without a
"contains"-family modifier unless the field is unbound, (2) some
`base64offset` with no "contains"-family modifier later in the
sequence, and (3) declared-set modifiers applied more than once,
reported once as a set. -/
def InvalidModifierCombinationsValidator.validate_detection_item
    (rule : SigmaRule) (item : SigmaDetectionItem) : List SigmaValidationIssue :=
  (if SigmaModifier.all ∈ item.modifiers ∧ ¬ item.modifiers.any containsFamily ∧
      item.field ≠ none then
    [.AllWithoutContainsModifierIssue [rule] item]
  else []) ++
  (if base64offsetDangling item.modifiers then
    [.Base64OffsetWithoutContainsModifierIssue [rule] item]
  else []) ++
  (if duplicatedModifiers item.modifiers ≠ ∅ then
    [.ModifierAppliedMultipleIssue [rule] item (duplicatedModifiers item.modifiers)]
  else [])

/-- Modelled from the spec: the whole-rule `validate` of
`InvalidModifierCombinationsValidator` walks every field-match
specification of every sub-detection ("Each field-match specification
is evaluated independently") and concatenates the per-item issues. -/
def InvalidModifierCombinationsValidator.validate (rule : SigmaRule) :
    List SigmaValidationIssue :=
  (rule.detections.map (fun d =>
    (d.2.map (InvalidModifierCombinationsValidator.validate_detection_item rule)).flatten)).flatten

/-- Whether an issue is an `AllWithoutContainsModifierIssue`. -/
def SigmaValidationIssue.isAllWithoutContains : SigmaValidationIssue → Bool
  | .AllWithoutContainsModifierIssue _ _ => true
  | _ => false

/-- Whether an issue is a `Base64OffsetWithoutContainsModifierIssue`. -/
def SigmaValidationIssue.isBase64OffsetWithoutContains : SigmaValidationIssue → Bool
  | .Base64OffsetWithoutContainsModifierIssue _ _ => true
  | _ => false

/-- Whether an issue is a `ModifierAppliedMultipleIssue`. -/
def SigmaValidationIssue.isModifierAppliedMultiple : SigmaValidationIssue → Bool
  | .ModifierAppliedMultipleIssue _ _ _ => true
  | _ => false

/-- The tag payload of a tag-validator issue, when the issue carries
one. -/
def SigmaValidationIssue.tagPayload : SigmaValidationIssue → Option SigmaRuleTag
  | .InvalidATTACKTagIssue _ t => some t
  | .InvalidTLPTagIssue _ t => some t
  | _ => none

/-- The one-step world transition of an ATT&CK-validator `validate`
call: the validator state is updated, the inspected rule is returned
as the source leaves it.  The source's `validate` and `validate_tag`
assign only to `self` (`self.rule`), never to any attribute of the
rule, so the rule component of the world passes through. -/
def ATTACKTagValidator.validateWorld
    (w : ATTACKTagValidator × SigmaRule) :
    (ATTACKTagValidator × SigmaRule) × List SigmaValidationIssue :=
  let step := w.1.validate w.2
  ((step.1, w.2), step.2)

/-- The one-step world transition of a TLP-validator `validate` call;
as for the ATT&CK validator, the source assigns only to `self`, never
to the rule. -/
def TLPTagValidatorBase.validateWorld
    (w : TLPTagValidatorBase × SigmaRule) :
    (TLPTagValidatorBase × SigmaRule) × List SigmaValidationIssue :=
  let step := w.1.validate w.2
  ((step.1, w.2), step.2)

/-- The rule used by every test of `tests/test_validators.py` (title
`Test`, one sub-detection `sel` with `field: value`, condition
`sel`), before any tags are attached. -/
def baseTestRule : SigmaRule :=
  { title := "Test"
    id := none
    detections := [("sel", [⟨some "field", [], ["value"]⟩])]
    conditions := [.ref (.literal "sel")]
    tags := [] }

/-- The test rule with the given tag strings attached
(`rule.tags = [SigmaRuleTag.from_str(tag) for tag in tags]` in the
tests). -/
def ruleWithTags (tags : List String) : SigmaRule :=
  { baseTestRule with tags := tags.map SigmaRuleTag.from_str }

/-- Sample tactic catalog entry, shaped like
`mitre_attack_tactics`: identifier to hyphenated display name. -/
def sampleTactics : List (String × String) :=
  [("TA0011", "Command-and-Control")]

/-- Sample technique catalog entry, shaped like
`mitre_attack_techniques`: technique identifier to display name. -/
def sampleTechniques : List (String × String) :=
  [("T1001.001", "Junk Data")]

/-- The rule of `test_validator_dangling_detection`: three referenced
sub-detections, one unreferenced, condition
`(referenced1 or referenced2) and referenced3`. -/
def danglingTestRule : SigmaRule :=
  { title := "Test"
    id := none
    detections :=
      [("referenced1", [⟨some "field1", [], ["val1"]⟩]),
       ("referenced2", [⟨some "field2", [], ["val2"]⟩]),
       ("referenced3", [⟨some "field3", [], ["val3"]⟩]),
       ("unreferenced", [⟨some "field4", [], ["val4"]⟩])]
    conditions :=
      [.and (.or (.ref (.literal "referenced1")) (.ref (.literal "referenced2")))
        (.ref (.literal "referenced3"))]
    tags := [] }

/-- The rule of `test_validator_dangling_detection_valid`: the same
condition with only the three referenced sub-detections. -/
def referencedTestRule : SigmaRule :=
  { danglingTestRule with
    detections :=
      [("referenced1", [⟨some "field1", [], ["val1"]⟩]),
       ("referenced2", [⟨some "field2", [], ["val2"]⟩]),
       ("referenced3", [⟨some "field3", [], ["val3"]⟩])] }

/-- The rule of `test_validator_dangling_detection_valid_x_of_wildcard`:
condition `1 of referenced*`. -/
def wildcardTestRule : SigmaRule :=
  { referencedTestRule with
    conditions := [.ofCount 1 (.wildcard "referenced*")] }

/-- The rule of `test_validator_dangling_detection_valid_x_of_them`:
condition `1 of them`. -/
def themTestRule : SigmaRule :=
  { referencedTestRule with conditions := [.ofCount 1 .them] }

/-- C1: the ATT&CK tag validator's allow-set, built at construction, is
exactly the tactic catalog's display names lower-cased with `-`
replaced by `_` unioned with the technique catalog's keys lower-cased;
`validate` leaves the allow-set untouched, and thereafter
`validate_tag` returns exactly one `InvalidATTACKTagIssue` for an
`attack`-namespace tag whose name is outside the allow-set, an empty
list for an `attack`-namespace tag inside it, and an empty list for
every tag outside the `attack` namespace. -/
theorem attack_tag_validator_correct
    (mitre_attack_tactics mitre_attack_techniques : List (String × String))
    (rule : SigmaRule) (tag : SigmaRuleTag) :
    (∀ n : String,
        n ∈ (ATTACKTagValidator.init mitre_attack_tactics mitre_attack_techniques).allowed_tags ↔
          ((∃ p ∈ mitre_attack_tactics, tacticNormalize p.2 = n) ∨
           (∃ p ∈ mitre_attack_techniques, strLower p.1 = n)))
    ∧ ((ATTACKTagValidator.init mitre_attack_tactics mitre_attack_techniques).validate rule).1.allowed_tags
        = (ATTACKTagValidator.init mitre_attack_tactics mitre_attack_techniques).allowed_tags
    ∧ (tag.«namespace» = "attack" →
        tag.name ∉ (ATTACKTagValidator.init mitre_attack_tactics mitre_attack_techniques).allowed_tags →
        ((ATTACKTagValidator.init mitre_attack_tactics mitre_attack_techniques).validate rule).1.validate_tag tag
          = [.InvalidATTACKTagIssue [rule] tag])
    ∧ (tag.«namespace» = "attack" →
        tag.name ∈ (ATTACKTagValidator.init mitre_attack_tactics mitre_attack_techniques).allowed_tags →
        ((ATTACKTagValidator.init mitre_attack_tactics mitre_attack_techniques).validate rule).1.validate_tag tag
          = [])
    ∧ (tag.«namespace» ≠ "attack" →
        ((ATTACKTagValidator.init mitre_attack_tactics mitre_attack_techniques).validate rule).1.validate_tag tag
          = []) := by
  refine ⟨fun n => ?_, rfl, fun h1 h2 => ?_, fun h1 h2 => ?_, fun h1 => ?_⟩
  · simp [ATTACKTagValidator.init, List.mem_toFinset]
  · simp [ATTACKTagValidator.validate, ATTACKTagValidator.validate_tag, selfRuleList, h1, h2]
  · simp [ATTACKTagValidator.validate, ATTACKTagValidator.validate_tag, h1, h2]
  · simp [ATTACKTagValidator.validate, ATTACKTagValidator.validate_tag, h1]

/-- Witness for C1 at the sample catalogs and the tags the tests use:
`attack.test1` is flagged, the tactic-derived `attack.command_and_control`
and the technique-derived `attack.t1001.001` are accepted, and a
non-`attack` tag is ignored. -/
theorem attack_tag_validator_correct_witness :
    ((SigmaRuleTag.from_str "attack.test1").«namespace» = "attack"
      ∧ (SigmaRuleTag.from_str "attack.test1").name
          ∉ (ATTACKTagValidator.init sampleTactics sampleTechniques).allowed_tags
      ∧ ((ATTACKTagValidator.init sampleTactics sampleTechniques).validate
            (ruleWithTags ["attack.test1"])).1.validate_tag (SigmaRuleTag.from_str "attack.test1")
          = [.InvalidATTACKTagIssue [ruleWithTags ["attack.test1"]]
              (SigmaRuleTag.from_str "attack.test1")])
    ∧ ((ATTACKTagValidator.init sampleTactics sampleTechniques).validate
          (ruleWithTags ["attack.test1"])).1.validate_tag
            (SigmaRuleTag.from_str "attack.command_and_control") = []
    ∧ ((ATTACKTagValidator.init sampleTactics sampleTechniques).validate
          (ruleWithTags ["attack.test1"])).1.validate_tag
            (SigmaRuleTag.from_str "attack.t1001.001") = []
    ∧ ((ATTACKTagValidator.init sampleTactics sampleTechniques).validate
          (ruleWithTags ["attack.test1"])).1.validate_tag
            (SigmaRuleTag.from_str "cve.2021.44228") = [] :=
  ⟨⟨by decide, by decide,
    (attack_tag_validator_correct sampleTactics sampleTechniques
      (ruleWithTags ["attack.test1"]) (SigmaRuleTag.from_str "attack.test1")).2.2.1
      (by decide) (by decide)⟩,
   (attack_tag_validator_correct sampleTactics sampleTechniques
      (ruleWithTags ["attack.test1"]) (SigmaRuleTag.from_str "attack.command_and_control")).2.2.2.1
      (by decide) (by decide),
   (attack_tag_validator_correct sampleTactics sampleTechniques
      (ruleWithTags ["attack.test1"]) (SigmaRuleTag.from_str "attack.t1001.001")).2.2.2.1
      (by decide) (by decide),
   (attack_tag_validator_correct sampleTactics sampleTechniques
      (ruleWithTags ["attack.test1"]) (SigmaRuleTag.from_str "cve.2021.44228")).2.2.2.2
      (by decide)⟩

/-- C2: each TLP validator flags a `tlp`-namespace tag with exactly one
`InvalidTLPTagIssue` iff its name is outside that validator's fixed
allow-set and never flags tags outside the `tlp` namespace; the v1,
v2 and union allow-sets are as the source declares them; and on the
test scenarios, v1 flags only `tlp.clear`, v2 flags only `tlp.white`,
the union validator flags neither, and adding `tlp.test` yields
exactly one issue for `tlp.test`. -/
theorem tlp_tag_validators_correct (tag : SigmaRuleTag) :
    (∀ v : TLPTagValidatorBase, tag.«namespace» = "tlp" →
        (tag.name ∉ v.allowed_tags →
          v.validate_tag tag = [.InvalidTLPTagIssue (selfRuleList v.rule) tag])
        ∧ (tag.name ∈ v.allowed_tags → v.validate_tag tag = []))
    ∧ (∀ v : TLPTagValidatorBase, tag.«namespace» ≠ "tlp" → v.validate_tag tag = [])
    ∧ TLPv1TagValidator.allowed_tags = {"white", "green", "amber", "red"}
    ∧ TLPv2TagValidator.allowed_tags = {"clear", "green", "amber", "amber+strict", "red"}
    ∧ TLPTagValidator.allowed_tags
        = TLPv1TagValidator.allowed_tags ∪ TLPv2TagValidator.allowed_tags
    ∧ (TLPv1TagValidator.init.validate (ruleWithTags ["tlp.clear", "tlp.white"])).2
        = [.InvalidTLPTagIssue [ruleWithTags ["tlp.clear", "tlp.white"]]
            (SigmaRuleTag.from_str "tlp.clear")]
    ∧ (TLPv2TagValidator.init.validate (ruleWithTags ["tlp.clear", "tlp.white"])).2
        = [.InvalidTLPTagIssue [ruleWithTags ["tlp.clear", "tlp.white"]]
            (SigmaRuleTag.from_str "tlp.white")]
    ∧ (TLPTagValidator.init.validate (ruleWithTags ["tlp.clear", "tlp.white"])).2 = []
    ∧ (TLPTagValidator.init.validate (ruleWithTags ["tlp.clear", "tlp.white", "tlp.test"])).2
        = [.InvalidTLPTagIssue [ruleWithTags ["tlp.clear", "tlp.white", "tlp.test"]]
            (SigmaRuleTag.from_str "tlp.test")] := by
  refine ⟨fun v h1 => ⟨fun h2 => ?_, fun h2 => ?_⟩, fun v h1 => ?_,
    by decide, by decide, rfl, by decide, by decide, by decide, by decide⟩
  · simp [TLPTagValidatorBase.validate_tag, h1, h2]
  · simp [TLPTagValidatorBase.validate_tag, h1, h2]
  · simp [TLPTagValidatorBase.validate_tag, h1]

/-- Witness for C2: the union validator, after validating the
`tlp.test`-tagged rule, flags `tlp.test`. -/
theorem tlp_tag_validators_correct_witness :
    (SigmaRuleTag.from_str "tlp.test").«namespace» = "tlp"
    ∧ (SigmaRuleTag.from_str "tlp.test").name
        ∉ ((TLPTagValidator.init.validate (ruleWithTags ["tlp.test"])).1).allowed_tags
    ∧ ((TLPTagValidator.init.validate (ruleWithTags ["tlp.test"])).1).validate_tag
          (SigmaRuleTag.from_str "tlp.test")
        = [.InvalidTLPTagIssue
            (selfRuleList ((TLPTagValidator.init.validate (ruleWithTags ["tlp.test"])).1).rule)
            (SigmaRuleTag.from_str "tlp.test")] :=
  ⟨by decide, by decide,
   ((tlp_tag_validators_correct (SigmaRuleTag.from_str "tlp.test")).1
      ((TLPTagValidator.init.validate (ruleWithTags ["tlp.test"])).1)
      (by decide)).1 (by decide)⟩

/-- C6 counterexample: constructing the ATT&CK validator from empty
catalogs does not abort — it completes, leaves an empty allow-set, and
the resulting validator flags an `attack`-namespace tag against that
empty set. -/
theorem attack_empty_catalog_counterexample :
    (ATTACKTagValidator.init [] []).allowed_tags = ∅
    ∧ ((ATTACKTagValidator.init [] []).validate (ruleWithTags ["attack.t1059"])).2
        = [.InvalidATTACKTagIssue [ruleWithTags ["attack.t1059"]]
            (SigmaRuleTag.from_str "attack.t1059")] := by
  decide

/-- C6 amended: when the tactic and technique catalogs are empty,
`ATTACKTagValidator` construction completes normally with an empty
allow-set, and the validator then flags every `attack`-namespace tag;
construction never aborts. -/
theorem attack_empty_catalog_behavior (rule : SigmaRule) (tag : SigmaRuleTag)
    (h : tag.«namespace» = "attack") :
    (ATTACKTagValidator.init [] []).allowed_tags = ∅
    ∧ ((ATTACKTagValidator.init [] []).validate rule).1.validate_tag tag
        = [.InvalidATTACKTagIssue [rule] tag] := by
  refine ⟨by decide, ?_⟩
  simp [ATTACKTagValidator.init, ATTACKTagValidator.validate,
    ATTACKTagValidator.validate_tag, selfRuleList, h]

/-- Witness for the amended C6 at a concrete rule and tag. -/
theorem attack_empty_catalog_behavior_witness :
    (SigmaRuleTag.from_str "attack.t1059").«namespace» = "attack"
    ∧ ((ATTACKTagValidator.init [] []).validate (ruleWithTags ["attack.t1059"])).1.validate_tag
          (SigmaRuleTag.from_str "attack.t1059")
        = [.InvalidATTACKTagIssue [ruleWithTags ["attack.t1059"]]
            (SigmaRuleTag.from_str "attack.t1059")] :=
  ⟨by decide,
   (attack_empty_catalog_behavior (ruleWithTags ["attack.t1059"])
      (SigmaRuleTag.from_str "attack.t1059") (by decide)).2⟩

/-- C7: validating the same rule twice in a row with an ATT&CK or TLP
tag validator returns the same issue list both times (the only state
written by `validate` is the recorded rule, which the second call
overwrites with the same value). -/
theorem validate_twice_same_result (v : ATTACKTagValidator)
    (w : TLPTagValidatorBase) (rule : SigmaRule) :
    (((v.validate rule).1).validate rule).2 = (v.validate rule).2
    ∧ (((w.validate rule).1).validate rule).2 = (w.validate rule).2 :=
  ⟨rfl, rfl⟩

/-- C8: a `validate` call never mutates the inspected rule: the rule
component of the validator-rule world after the call is exactly the
rule passed in, for the ATT&CK and the TLP validators (the pure
`DanglingDetectionValidator.validate` and
`InvalidModifierCombinationsValidator.validate` take the rule only as
an argument and return issues, so they cannot touch it). -/
theorem validate_leaves_rule_unchanged (v : ATTACKTagValidator)
    (w : TLPTagValidatorBase) (rule : SigmaRule) :
    (ATTACKTagValidator.validateWorld (v, rule)).1.2 = rule
    ∧ (TLPTagValidatorBase.validateWorld (w, rule)).1.2 = rule :=
  ⟨rfl, rfl⟩

/-- C9: the union TLP validator's allow-set is the union of the v1 and
v2 allow-sets, so after validating any rule it flags a tag iff both
the v1 and the v2 validators flag it. -/
theorem tlp_union_flags_iff_both (rule : SigmaRule) (tag : SigmaRuleTag) :
    TLPTagValidator.allowed_tags
        = TLPv1TagValidator.allowed_tags ∪ TLPv2TagValidator.allowed_tags
    ∧ (((TLPTagValidator.init.validate rule).1.validate_tag tag ≠ []) ↔
        (((TLPv1TagValidator.init.validate rule).1.validate_tag tag ≠ []) ∧
         ((TLPv2TagValidator.init.validate rule).1.validate_tag tag ≠ []))) := by
  refine ⟨rfl, ?_⟩
  simp only [TLPTagValidatorBase.validate, TLPTagValidatorBase.validate_tag,
    TLPv1TagValidator.init, TLPv2TagValidator.init, TLPTagValidator.init,
    TLPTagValidator.allowed_tags]
  by_cases h1 : tag.«namespace» = "tlp"
  · by_cases hv1 : tag.name ∈ TLPv1TagValidator.allowed_tags
    · simp [h1, hv1, Finset.mem_union]
    · by_cases hv2 : tag.name ∈ TLPv2TagValidator.allowed_tags
      · simp [h1, hv1, hv2, Finset.mem_union]
      · simp [h1, hv1, hv2, Finset.mem_union]
  · simp [h1]

/-- C10: a `validate_tag` call on the ATT&CK validator or on any TLP
validator returns at most one issue, and every returned issue has
severity `MEDIUM`, carries the offending tag as its payload, and
implicates exactly the rule under validation. -/
theorem tag_issue_invariants (v : ATTACKTagValidator)
    (w : TLPTagValidatorBase) (rule : SigmaRule) (tag : SigmaRuleTag) :
    (((v.validate rule).1.validate_tag tag).length ≤ 1
      ∧ ∀ issue ∈ (v.validate rule).1.validate_tag tag,
          issue.severity = .MEDIUM ∧ issue.rules = [rule]
            ∧ issue.tagPayload = some tag)
    ∧ (((w.validate rule).1.validate_tag tag).length ≤ 1
      ∧ ∀ issue ∈ (w.validate rule).1.validate_tag tag,
          issue.severity = .MEDIUM ∧ issue.rules = [rule]
            ∧ issue.tagPayload = some tag) := by
  constructor
  · constructor
    · simp only [ATTACKTagValidator.validate, ATTACKTagValidator.validate_tag]
      split <;> simp
    · intro issue hmem
      simp only [ATTACKTagValidator.validate, ATTACKTagValidator.validate_tag] at hmem
      split at hmem <;> simp at hmem
      subst hmem
      simp [SigmaValidationIssue.severity, SigmaValidationIssue.rules,
        SigmaValidationIssue.tagPayload, selfRuleList]
  · constructor
    · simp only [TLPTagValidatorBase.validate, TLPTagValidatorBase.validate_tag]
      split <;> simp
    · intro issue hmem
      simp only [TLPTagValidatorBase.validate, TLPTagValidatorBase.validate_tag] at hmem
      split at hmem <;> simp at hmem
      subst hmem
      simp [SigmaValidationIssue.severity, SigmaValidationIssue.rules,
        SigmaValidationIssue.tagPayload, selfRuleList]

/-- Witness for C10 at a flagged tag: the single issue returned for
`attack.test1` has severity `MEDIUM`, payload `attack.test1`, and
implicates exactly the validated rule. -/
theorem tag_issue_invariants_witness :
    (SigmaValidationIssue.InvalidATTACKTagIssue [ruleWithTags ["attack.test1"]]
        (SigmaRuleTag.from_str "attack.test1"))
      ∈ ((ATTACKTagValidator.init sampleTactics sampleTechniques).validate
          (ruleWithTags ["attack.test1"])).1.validate_tag (SigmaRuleTag.from_str "attack.test1")
    ∧ (SigmaValidationIssue.InvalidATTACKTagIssue [ruleWithTags ["attack.test1"]]
        (SigmaRuleTag.from_str "attack.test1")).severity = .MEDIUM
    ∧ (SigmaValidationIssue.InvalidATTACKTagIssue [ruleWithTags ["attack.test1"]]
        (SigmaRuleTag.from_str "attack.test1")).rules = [ruleWithTags ["attack.test1"]]
    ∧ (SigmaValidationIssue.InvalidATTACKTagIssue [ruleWithTags ["attack.test1"]]
        (SigmaRuleTag.from_str "attack.test1")).tagPayload
        = some (SigmaRuleTag.from_str "attack.test1") := by
  refine ⟨by decide, ?_⟩
  have h := (tag_issue_invariants (ATTACKTagValidator.init sampleTactics sampleTechniques)
    TLPv1TagValidator.init (ruleWithTags ["attack.test1"])
    (SigmaRuleTag.from_str "attack.test1")).1.2
    (SigmaValidationIssue.InvalidATTACKTagIssue [ruleWithTags ["attack.test1"]]
      (SigmaRuleTag.from_str "attack.test1")) (by decide)
  exact h

/-- C4: for a rule with distinct sub-detection names, the
dangling-detection validator emits exactly one issue per name defined
but not reachable from the condition expressions; a rule whose only
condition is `1 of them` yields no issues whatever its detection set;
and on the four test rules the validator behaves as the tests
record. -/
theorem dangling_detection_correct (rule : SigmaRule) (n : String)
    (h : rule.detectionNames.Nodup) :
    ((DanglingDetectionValidator.validate rule).count
        (.DanglingDetectionIssue [rule] n)
      = if n ∈ rule.detectionNames ∧ ¬ rule.referencesName n then 1 else 0)
    ∧ (∀ r : SigmaRule, r.conditions = [.ofCount 1 .them] →
        DanglingDetectionValidator.validate r = [])
    ∧ DanglingDetectionValidator.validate danglingTestRule
        = [.DanglingDetectionIssue [danglingTestRule] "unreferenced"]
    ∧ DanglingDetectionValidator.validate referencedTestRule = []
    ∧ DanglingDetectionValidator.validate wildcardTestRule = []
    ∧ DanglingDetectionValidator.validate themTestRule = [] := by
  have hinj : Function.Injective
      (fun m : String => SigmaValidationIssue.DanglingDetectionIssue [rule] m) := by
    intro a b hab
    simpa using hab
  refine ⟨?_, fun r hr => ?_, by decide, by decide, by decide, by decide⟩
  · unfold DanglingDetectionValidator.validate
    rw [List.count_map_of_injective _ _ hinj n]
    by_cases href : rule.referencesName n
    · rw [if_neg (by simp [href])]
      refine List.count_eq_zero_of_not_mem fun hmem => ?_
      rw [List.mem_filter] at hmem
      simp [href] at hmem
    · by_cases hmem : n ∈ rule.detectionNames
      · rw [if_pos ⟨hmem, href⟩, List.count_filter (by simp [href])]
        exact List.count_eq_one_of_mem h hmem
      · rw [if_neg fun hc => hmem hc.1]
        exact List.count_eq_zero_of_not_mem fun hc => hmem (List.mem_of_mem_filter hc)
  · have hall : (r.detectionNames.filter fun m => ¬ r.referencesName m) = [] := by
      rw [List.filter_eq_nil_iff]
      intro a ha
      simp [SigmaRule.referencesName, hr, ConditionExpr.referenced,
        ConditionAtom.resolve, ha]
    unfold DanglingDetectionValidator.validate
    rw [hall, List.map_nil]

/-- Witness for C4 at the dangling test rule and the name
`unreferenced`. -/
theorem dangling_detection_correct_witness :
    danglingTestRule.detectionNames.Nodup
    ∧ ((DanglingDetectionValidator.validate danglingTestRule).count
        (.DanglingDetectionIssue [danglingTestRule] "unreferenced")
      = if "unreferenced" ∈ danglingTestRule.detectionNames
            ∧ ¬ danglingTestRule.referencesName "unreferenced" then 1 else 0) :=
  ⟨by decide,
   (dangling_detection_correct danglingTestRule "unreferenced" (by decide)).1⟩

/-- C3 counterexample: `base64` applied twice to the same field match
is a modifier appearing more than once in the sequence, yet the
modifier-combination validator emits no issue at all for it (the
duplicate check covers only its declared modifier set). -/
theorem modifier_duplicates_counterexample :
    2 ≤ List.count SigmaModifier.base64 [SigmaModifier.base64, SigmaModifier.base64]
    ∧ InvalidModifierCombinationsValidator.validate_detection_item baseTestRule
        ⟨some "field", [.base64, .base64], ["value"]⟩ = [] := by
  decide

/-- C3 amended: the validator flags a modifier from its declared
duplicate-checked set (`base64offset`, `contains`) appearing more than
once, with exactly one issue carrying the full modifier sequence (in
the detection item) and the set of duplicated modifiers; duplicates of
modifiers outside that set (such as `base64`) are not flagged.  The
sequence `base64offset, base64offset, contains, contains` yields
exactly one issue whose duplicated set is
`{base64offset, contains}`. -/
theorem modifier_duplicates_correct (rule : SigmaRule) (item : SigmaDetectionItem) :
    ((InvalidModifierCombinationsValidator.validate_detection_item rule item).countP
        (fun i => i.isModifierAppliedMultiple)
      = if duplicatedModifiers item.modifiers = ∅ then 0 else 1)
    ∧ (duplicatedModifiers item.modifiers ≠ ∅ →
        SigmaValidationIssue.ModifierAppliedMultipleIssue [rule] item
            (duplicatedModifiers item.modifiers)
          ∈ InvalidModifierCombinationsValidator.validate_detection_item rule item)
    ∧ (∀ m : SigmaModifier, m ∈ duplicatedModifiers item.modifiers ↔
        m ∈ duplicateCheckedModifiers ∧ 2 ≤ item.modifiers.count m)
    ∧ InvalidModifierCombinationsValidator.validate_detection_item baseTestRule
        ⟨some "field", [.base64offset, .base64offset, .contains, .contains], ["value"]⟩
      = [.ModifierAppliedMultipleIssue [baseTestRule]
          ⟨some "field", [.base64offset, .base64offset, .contains, .contains], ["value"]⟩
          {SigmaModifier.base64offset, SigmaModifier.contains}] := by
  refine ⟨?_, fun hne => ?_, fun m => ?_, by decide⟩
  · unfold InvalidModifierCombinationsValidator.validate_detection_item
    split_ifs <;>
      simp_all [List.countP_append, List.countP_cons, List.countP_nil,
        SigmaValidationIssue.isModifierAppliedMultiple,
        SigmaValidationIssue.isAllWithoutContains,
        SigmaValidationIssue.isBase64OffsetWithoutContains]
  · unfold InvalidModifierCombinationsValidator.validate_detection_item
    simp [hne]
  · simp [duplicatedModifiers, Finset.mem_filter]

/-- Witness for the amended C3 at the duplicated
`base64offset, base64offset, contains, contains` sequence. -/
theorem modifier_duplicates_witness :
    duplicatedModifiers
        [SigmaModifier.base64offset, SigmaModifier.base64offset,
         SigmaModifier.contains, SigmaModifier.contains] ≠ ∅
    ∧ SigmaValidationIssue.ModifierAppliedMultipleIssue [baseTestRule]
        ⟨some "field",
         [SigmaModifier.base64offset, SigmaModifier.base64offset,
          SigmaModifier.contains, SigmaModifier.contains], ["value"]⟩
        (duplicatedModifiers
          [SigmaModifier.base64offset, SigmaModifier.base64offset,
           SigmaModifier.contains, SigmaModifier.contains])
      ∈ InvalidModifierCombinationsValidator.validate_detection_item baseTestRule
        ⟨some "field",
         [SigmaModifier.base64offset, SigmaModifier.base64offset,
          SigmaModifier.contains, SigmaModifier.contains], ["value"]⟩ :=
  ⟨by decide,
   (modifier_duplicates_correct baseTestRule
     ⟨some "field",
      [SigmaModifier.base64offset, SigmaModifier.base64offset,
       SigmaModifier.contains, SigmaModifier.contains], ["value"]⟩).2.1 (by decide)⟩

/-- `base64offsetDangling` holds exactly when the sequence has an
occurrence of `base64offset` with no "contains"-family modifier
anywhere after it. -/
theorem base64offsetDangling_iff (mods : List SigmaModifier) :
    base64offsetDangling mods = true ↔
      ∃ pre post, mods = pre ++ SigmaModifier.base64offset :: post
        ∧ post.any containsFamily = false := by
  induction mods with
  | nil => simp [base64offsetDangling]
  | cons m rest ih =>
      simp only [base64offsetDangling, Bool.or_eq_true, Bool.and_eq_true,
        decide_eq_true_eq, Bool.not_eq_true']
      constructor
      · rintro (⟨hm, hc⟩ | h)
        · exact ⟨[], rest, by rw [hm]; rfl, hc⟩
        · obtain ⟨pre, post, heq, hpost⟩ := ih.mp h
          exact ⟨m :: pre, post, by rw [heq]; rfl, hpost⟩
      · rintro ⟨pre, post, heq, hpost⟩
        cases pre with
        | nil =>
            rw [List.nil_append] at heq
            injection heq with h1 h2
            subst h2
            exact Or.inl ⟨h1, hpost⟩
        | cons q qre =>
            rw [List.cons_append] at heq
            injection heq with h1 h2
            exact Or.inr (ih.mpr ⟨qre, post, h2, hpost⟩)

/-- C5: per field-match specification, the validator emits exactly one
all-without-contains issue when `all` is used without a
"contains"-family modifier on a bound field and none when the field is
unbound; it emits exactly one base64offset-without-contains issue when
some `base64offset` has no "contains"-family modifier later in the
sequence (and none otherwise); and the test vectors behave as
recorded. -/
theorem modifier_all_base64offset_correct (rule : SigmaRule)
    (item : SigmaDetectionItem) :
    ((InvalidModifierCombinationsValidator.validate_detection_item rule item).countP
        (fun i => i.isAllWithoutContains)
      = if SigmaModifier.all ∈ item.modifiers
            ∧ ¬ item.modifiers.any containsFamily ∧ item.field ≠ none
        then 1 else 0)
    ∧ (item.field = none →
        (InvalidModifierCombinationsValidator.validate_detection_item rule item).countP
          (fun i => i.isAllWithoutContains) = 0)
    ∧ ((InvalidModifierCombinationsValidator.validate_detection_item rule item).countP
        (fun i => i.isBase64OffsetWithoutContains)
      = if base64offsetDangling item.modifiers then 1 else 0)
    ∧ (base64offsetDangling item.modifiers = true ↔
        ∃ pre post, item.modifiers = pre ++ SigmaModifier.base64offset :: post
          ∧ post.any containsFamily = false)
    ∧ InvalidModifierCombinationsValidator.validate_detection_item baseTestRule
        ⟨some "field", [.all], ["value1", "value2", "value3"]⟩
      = [.AllWithoutContainsModifierIssue [baseTestRule]
          ⟨some "field", [.all], ["value1", "value2", "value3"]⟩]
    ∧ InvalidModifierCombinationsValidator.validate_detection_item baseTestRule
        ⟨none, [.all], ["value1", "value2", "value3"]⟩ = []
    ∧ InvalidModifierCombinationsValidator.validate_detection_item baseTestRule
        ⟨some "field", [.contains, .all], ["value1", "value2", "value3"]⟩ = []
    ∧ InvalidModifierCombinationsValidator.validate_detection_item baseTestRule
        ⟨some "field", [.base64offset], ["value"]⟩
      = [.Base64OffsetWithoutContainsModifierIssue [baseTestRule]
          ⟨some "field", [.base64offset], ["value"]⟩]
    ∧ InvalidModifierCombinationsValidator.validate_detection_item baseTestRule
        ⟨some "field", [.base64offset, .contains], ["value"]⟩ = [] := by
  refine ⟨?_, fun hnone => ?_, ?_, base64offsetDangling_iff item.modifiers,
    by decide, by decide, by decide, by decide, by decide⟩
  · unfold InvalidModifierCombinationsValidator.validate_detection_item
    split_ifs <;>
      simp_all [List.countP_append, List.countP_cons, List.countP_nil,
        SigmaValidationIssue.isModifierAppliedMultiple,
        SigmaValidationIssue.isAllWithoutContains,
        SigmaValidationIssue.isBase64OffsetWithoutContains]
  · unfold InvalidModifierCombinationsValidator.validate_detection_item
    split_ifs <;>
      simp_all [List.countP_append, List.countP_cons, List.countP_nil,
        SigmaValidationIssue.isModifierAppliedMultiple,
        SigmaValidationIssue.isAllWithoutContains,
        SigmaValidationIssue.isBase64OffsetWithoutContains]
  · unfold InvalidModifierCombinationsValidator.validate_detection_item
    split_ifs <;>
      simp_all [List.countP_append, List.countP_cons, List.countP_nil,
        SigmaValidationIssue.isModifierAppliedMultiple,
        SigmaValidationIssue.isAllWithoutContains,
        SigmaValidationIssue.isBase64OffsetWithoutContains]

/-- Witness for C5 at the unbound-field `|all` specification. -/
theorem modifier_all_base64offset_witness :
    (⟨none, [SigmaModifier.all], ["value1", "value2", "value3"]⟩ : SigmaDetectionItem).field
        = none
    ∧ (InvalidModifierCombinationsValidator.validate_detection_item baseTestRule
        ⟨none, [SigmaModifier.all], ["value1", "value2", "value3"]⟩).countP
        (fun i => i.isAllWithoutContains) = 0 :=
  ⟨rfl,
   (modifier_all_base64offset_correct baseTestRule
     ⟨none, [SigmaModifier.all], ["value1", "value2", "value3"]⟩).2.1 rfl⟩

end PySigma
